import Mathlib

/-!
Shallow embedding of `src/bot.py` (IDT CRISPR gRNA Slack bot).

The embedding follows the Python source closely:
  * Python string primitives (`str.split(None, n)`, `str.rsplit(None, 1)`,
    `str.strip()`, `str.upper()`, `str.lower()`, `str.split("\n")`,
    `str.startswith`) are modelled on `List Char` / `String`.
  * JSON scalar values that the formatters inspect are modelled by `Val`
    (a number or a string); dictionary `.get` with a default is `pyGet`.
  * The Slack side effects of the command handler (ack, respond, remote
    API call) are recorded in order as a `List Effect`; the text payload
    of each section block is abstracted to the structured components the
    source interpolates into it.
  * Scores are rationals (`ℚ`), time is a rational timestamp.
-/

namespace Bot

/-- Python whitespace for `str.split(None)` / `str.strip()` (ASCII range). -/
def pySpace (c : Char) : Bool :=
  c = ' ' || c = '\t' || c = '\n' || c = '\r' || c = '\x0b' || c = '\x0c'

/-- Drop the leading run of whitespace. -/
def pyDropWsL : List Char → List Char
  | [] => []
  | c :: cs => if pySpace c then pyDropWsL cs else c :: cs

/-- Take the leading run of non-whitespace characters; return (word, rest). -/
def pyTakeWord : List Char → List Char × List Char
  | [] => ([], [])
  | c :: cs =>
    if pySpace c then ([], c :: cs)
    else
      let p := pyTakeWord cs
      (c :: p.1, p.2)

/-- Model of `str.strip()`: remove leading and trailing whitespace. -/
def pyStrip (s : String) : String :=
  String.mk (((pyDropWsL s.data.reverse).reverse |> pyDropWsL))

/-- Model of `str.upper()` (ASCII). -/
def pyUpper (s : String) : String := String.mk (s.data.map Char.toUpper)

/-- Model of `str.lower()` (ASCII). -/
def pyLower (s : String) : String := String.mk (s.data.map Char.toLower)

/-- Worker for `str.split(None, maxsplit)`.  The input list carries no
leading whitespace; `fuel` bounds the recursion (callers pass the length
of the list, which suffices because every step consumes a nonempty word). -/
def pySplitWsGo (fuel m : Nat) (s : List Char) : List (List Char) :=
  match fuel, s with
  | _, [] => []
  | 0, s => [s]
  | fuel + 1, s =>
    match m with
    | 0 => [s]
    | m + 1 =>
      let p := pyTakeWord s
      p.1 :: pySplitWsGo fuel m (pyDropWsL p.2)

/-- Model of `str.split(None, maxsplit)`: split on runs of whitespace, at most
`maxsplit` splits; the final chunk keeps its trailing whitespace. -/
def pySplitWs (maxsplit : Nat) (s : String) : List String :=
  (pySplitWsGo s.data.length maxsplit (pyDropWsL s.data)).map String.mk

/-- Model of `str.rsplit(None, 1)`: split off the last whitespace-delimited word. -/
def pyRsplitWs1 (s : String) : List String :=
  let r := pyDropWsL s.data.reverse
  match r with
  | [] => []
  | _ =>
    let p := pyTakeWord r
    let rest := pyDropWsL p.2
    match rest with
    | [] => [String.mk p.1.reverse]
    | _ => [String.mk rest.reverse, String.mk p.1.reverse]

/-- Model of `str.split("\n")`: split on every newline, keeping empty chunks. -/
def splitNlGo : List Char → List (List Char)
  | [] => [[]]
  | c :: cs =>
    let r := splitNlGo cs
    if c = '\n' then [] :: r
    else
      match r with
      | [] => [[c]]
      | h :: t => (c :: h) :: t

/-- Model of `str.split("\n")` on a `String`. -/
def pySplitNl (s : String) : List String := (splitNlGo s.data).map String.mk

/-- Model of `str.startswith(p)` for a single-character prefix. -/
def pyStartsWith (s : String) (c : Char) : Bool :=
  match s.data with
  | [] => false
  | d :: _ => d = c

/-- A JSON scalar as the formatters see it: a number (int/float) or a
string.  `isinstance(x, (int, float))` is `Val.isNum`. -/
inductive Val where
  | num (x : ℚ)
  | str (s : String)
deriving DecidableEq, Repr

/-- Test for `isinstance(x, (int, float))`. -/
def Val.isNum : Val → Bool
  | .num _ => true
  | .str _ => false

/-- Model of `dict.get(key, default)`: the field if present, else the default. -/
def pyGet (field : Option Val) (default : Val) : Val := field.getD default

/-- The `SUPPORTED_SPECIES` list (bot.py line 51). -/
def SUPPORTED_SPECIES : List String := ["human", "mouse", "rat", "zebrafish", "celegans"]

/-- Lookup `SPECIES_DISPLAY.get(species, species)` (bot.py lines 52-58). -/
def speciesDisplay (species : String) : String :=
  if species = "human" then "Homo sapiens"
  else if species = "mouse" then "Mus musculus"
  else if species = "rat" then "Rattus norvegicus"
  else if species = "zebrafish" then "Danio rerio"
  else if species = "celegans" then "Caenorhabditis elegans"
  else species

/-- One guide record of a design/predesign payload; every field the
formatters look up is optional (absent key = `none`). -/
structure Guide where
  Sequence : Option Val := none
  sequence : Option Val := none
  GuideSequence : Option Val := none
  OnTargetScore : Option Val := none
  onTargetScore : Option Val := none
  OffTargetScore : Option Val := none
  offTargetScore : Option Val := none
  Position : Option Val := none
  position : Option Val := none
  Strand : Option Val := none
  strand : Option Val := none
  DesignId : Option Val := none
  designId : Option Val := none
deriving DecidableEq, Repr

/-- One record of a checker payload. -/
structure CheckResult where
  OnTargetScore : Option Val := none
  onTargetScore : Option Val := none
  OffTargetScore : Option Val := none
  offTargetScore : Option Val := none
deriving DecidableEq, Repr

/-- A design/predesign response body: either a bare JSON list, or an
object with optional "Guides" and "Results" keys. -/
inductive GuidePayload where
  | list (gs : List Guide)
  | obj (guides : Option (List Guide)) (results : Option (List Guide))
deriving DecidableEq, Repr

/-- Extraction `data if isinstance(data, list) else data.get("Guides", data.get("Results", []))`
(bot.py lines 280 and 445). -/
def extractGuides : GuidePayload → List Guide
  | .list gs => gs
  | .obj gds res => gds.getD (res.getD [])

/-- A checker response body: either a bare JSON list, or an object with
an optional "Results" key; when the key is absent the object itself is
treated as the single result record (`data.get("Results", [data])`). -/
inductive CheckerPayload where
  | list (rs : List CheckResult)
  | obj (results : Option (List CheckResult)) (selfRecord : CheckResult)
deriving DecidableEq, Repr

/-- Extraction `data if isinstance(data, list) else data.get("Results", [data])`
(bot.py line 365). -/
def extractResults : CheckerPayload → List CheckResult
  | .list rs => rs
  | .obj res selfRecord => res.getD [selfRecord]

/-- Score colour emoji used by all three formatters. -/
inductive Emoji where
  | green
  | yellow
  | red
deriving DecidableEq, Repr

/-- Check that a score value is numeric and at least `t`
(`isinstance(x, (int, float)) and x >= t`). -/
def Val.geNum : Val → ℚ → Bool
  | .num x, t => t ≤ x
  | .str _, _ => false

/-- Colour-coding chain
`"🟢" if isinstance(s,(int,float)) and s >= 60 else "🟡" if ... and s >= 40 else "🔴"`
(bot.py lines 303-304, 383-384, 469-470). -/
def scoreEmoji (s : Val) : Emoji :=
  if s.geNum 60 then .green else if s.geNum 40 then .yellow else .red

/-- A Slack block as the formatters build it.  Section blocks are split by
content: `notice` is the explanatory section used for empty results, the
three `*Entry` constructors are the per-record sections, carrying the
components the source interpolates into the mrkdwn text, and `footer` is
the trailing help/link context block. -/
inductive Block where
  | header (text : String)
  | context (text : String)
  | divider
  | notice (text : String)
  | customEntry (idx : Nat) (seq onScore offScore pos strd : Val)
      (onEmoji offEmoji : Emoji)
  | checkerEntry (onScore offScore : Val) (onEmoji offEmoji : Emoji)
      (recommended : Bool)
  | predesignEntry (idx : Nat) (seq onScore offScore designId : Val)
      (onEmoji offEmoji : Emoji)
  | footer (text : String)
deriving DecidableEq, Repr

/-- Field lookup for a guide's displayed sequence:
`guide.get("Sequence", guide.get("sequence", guide.get("GuideSequence", "N/A")))`. -/
def Guide.seqVal (g : Guide) : Val :=
  pyGet g.Sequence (pyGet g.sequence (pyGet g.GuideSequence (.str "N/A")))

/-- Field lookup `guide.get("OnTargetScore", guide.get("onTargetScore", "—"))`. -/
def Guide.onScoreVal (g : Guide) : Val :=
  pyGet g.OnTargetScore (pyGet g.onTargetScore (.str "—"))

/-- Field lookup `guide.get("OffTargetScore", guide.get("offTargetScore", "—"))`. -/
def Guide.offScoreVal (g : Guide) : Val :=
  pyGet g.OffTargetScore (pyGet g.offTargetScore (.str "—"))

/-- Field lookup `guide.get("Position", guide.get("position", "—"))`. -/
def Guide.posVal (g : Guide) : Val :=
  pyGet g.Position (pyGet g.position (.str "—"))

/-- Field lookup `guide.get("Strand", guide.get("strand", "—"))`. -/
def Guide.strandVal (g : Guide) : Val :=
  pyGet g.Strand (pyGet g.strand (.str "—"))

/-- Field lookup `guide.get("DesignId", guide.get("designId", "—"))`. -/
def Guide.designIdVal (g : Guide) : Val :=
  pyGet g.DesignId (pyGet g.designId (.str "—"))

/-- Field lookup `result.get("OnTargetScore", result.get("onTargetScore", "—"))`. -/
def CheckResult.onScoreVal (r : CheckResult) : Val :=
  pyGet r.OnTargetScore (pyGet r.onTargetScore (.str "—"))

/-- Field lookup `result.get("OffTargetScore", result.get("offTargetScore", "—"))`. -/
def CheckResult.offScoreVal (r : CheckResult) : Val :=
  pyGet r.OffTargetScore (pyGet r.offTargetScore (.str "—"))

/-- Per-guide section block of `format_custom_results` (bot.py lines 294-320);
`idx` is the 1-based index from `enumerate(guides[:10], 1)`. -/
def customEntryBlock (idx : Nat) (g : Guide) : Block :=
  .customEntry idx g.seqVal g.onScoreVal g.offScoreVal g.posVal g.strandVal
    (scoreEmoji g.onScoreVal) (scoreEmoji g.offScoreVal)

/-- Checker verdict condition (bot.py lines 386-389): recommended iff both
scores are numeric, on-target ≥ 60 and off-target ≥ 50. -/
def checkerVerdict (onScore offScore : Val) : Bool :=
  onScore.geNum 60 && offScore.geNum 50

/-- Per-result section block of `format_checker_results` (bot.py lines 379-403). -/
def checkerEntryBlock (r : CheckResult) : Block :=
  .checkerEntry r.onScoreVal r.offScoreVal
    (scoreEmoji r.onScoreVal) (scoreEmoji r.offScoreVal)
    (checkerVerdict r.onScoreVal r.offScoreVal)

/-- Per-guide section block of `format_predesign_results` (bot.py lines 463-484). -/
def predesignEntryBlock (idx : Nat) (g : Guide) : Block :=
  .predesignEntry idx g.seqVal g.onScoreVal g.offScoreVal g.designIdVal
    (scoreEmoji g.onScoreVal) (scoreEmoji g.offScoreVal)

/-- Model of `format_custom_results` (bot.py lines 256-339). -/
def format_custom_results (data : GuidePayload) (species : String) : List Block :=
  let blocks : List Block :=
    [.header "🧬 IDT Custom gRNA Design Results",
     .context ("Species: *" ++ speciesDisplay species ++
       "* | Scoring: IDT ML model (>1400 features)"),
     .divider]
  let guides := extractGuides data
  if guides = [] then
    blocks ++ [.notice "⚠️ No guide RNAs found for this target region. Try a different sequence (23-1000 bp)."]
  else
    blocks ++
      ((guides.take 10).enum.map fun p => customEntryBlock (p.1 + 1) p.2) ++
      [.divider,
       .footer "💡 Scores 1-100 (higher = better). On-target ≥60 = high efficiency (>40% editing). IDT recommends testing ≥3 guides. <https://www.idtdna.com/site/order/designtool/index/CRISPR_CUSTOM|Open in IDT web tool>"]

/-- Model of `format_checker_results` (bot.py lines 342-420).  Note: the
per-result loop iterates over all extracted results with no cap. -/
def format_checker_results (data : CheckerPayload) (seqText species : String) :
    List Block :=
  let blocks : List Block :=
    [.header "🔍 IDT gRNA Sequence Check",
     .context ("Sequence: `" ++ seqText ++ "` | Species: *" ++
       speciesDisplay species ++ "*"),
     .divider]
  let results := extractResults data
  if results = [] then
    blocks ++ [.notice "⚠️ No results returned. Ensure sequence is exactly 20 bases (upstream of PAM site NGG)."]
  else
    blocks ++
      (results.map checkerEntryBlock) ++
      [.divider,
       .footer "💡 Input must be 20bp protospacer directly 5′ of PAM (NGG). <https://www.idtdna.com/site/order/designtool/index/CRISPR_SEQUENCE|Open in IDT checker>"]

/-- Model of `format_predesign_results` (bot.py lines 423-502). -/
def format_predesign_results (data : GuidePayload) (gene species : String) :
    List Block :=
  let blocks : List Block :=
    [.header ("📋 IDT Predesigned gRNAs — " ++ pyUpper gene),
     .context ("Gene: *" ++ pyUpper gene ++ "* | Species: *" ++
       speciesDisplay species ++ "*"),
     .divider]
  let guides := extractGuides data
  if guides = [] then
    blocks ++ [.notice ("⚠️ No predesigned gRNAs found for *" ++ pyUpper gene ++
      "* in *" ++ speciesDisplay species ++ "*.\nTry checking the gene symbol or use `/crispr design` with a custom FASTA sequence.")]
  else
    blocks ++
      ((guides.take 10).enum.map fun p => predesignEntryBlock (p.1 + 1) p.2) ++
      [.divider,
       .footer "💡 IDT recommends testing ≥3 guides for best results. Order directly: <https://www.idtdna.com/site/order/designtool/index/CRISPR_PREDESIGN|IDT Predesigned gRNA>"]

/-- Test for the per-record entry blocks (any of the three kinds). -/
def Block.isEntry : Block → Bool
  | .customEntry .. => true
  | .checkerEntry .. => true
  | .predesignEntry .. => true
  | _ => false

/-- Count of per-record entry blocks in a rendered block list. -/
def countEntries (bs : List Block) : Nat := bs.countP Block.isEntry

/-- The three remote IDT design endpoints the dispatcher can call. -/
inductive Endpoint where
  | custom
  | checker
  | predesigned
deriving DecidableEq, Repr

/-- Validation / usage error messages built through `format_error`,
with the data the source interpolates into the text. -/
inductive ErrMsg where
  | missingSequenceDesign
  | missingSequenceCheck
  | missingGene
  | designLength (got : Nat)
  | checkFormat (got : Nat)
  | unknownSub (sub : String)
deriving DecidableEq, Repr

/-- Exact message text passed to `format_error` for each validation error. -/
def ErrMsg.text : ErrMsg → String
  | .missingSequenceDesign =>
    "Missing sequence. Usage: `/crispr design <FASTA_sequence> [species]`"
  | .missingSequenceCheck =>
    "Missing sequence. Usage: `/crispr check <20bp_sequence> [species]`"
  | .missingGene =>
    "Missing gene symbol. Usage: `/crispr predesign <gene_symbol> [species]`"
  | .designLength got =>
    "Sequence length must be 23-1000 bp (got " ++ toString got ++ " bp)."
  | .checkFormat got =>
    "Sequence must be exactly 20 bases (A/C/G/T only). Got " ++ toString got ++ " chars."
  | .unknownSub sub =>
    "Unknown subcommand `" ++ sub ++ "`. Use `/crispr help` for usage."

/-- Payload of one `respond(...)` call. -/
inductive RespPayload where
  | blocksHelp
  | blocksError (e : ErrMsg)
  | textProgress (text : String)
  | blocksResults (bs : List Block)
deriving DecidableEq, Repr

/-- The `response_type` of a `respond(...)` call. -/
inductive Visibility where
  | ephemeral
  | inChannel
deriving DecidableEq, Repr

/-- One observable side effect of `handle_crispr_command`, in program order. -/
inductive Effect where
  | ack
  | respond (p : RespPayload) (v : Visibility)
  | callAPI (e : Endpoint)
deriving DecidableEq, Repr

/-- Test for a `respond(...)` effect. -/
def Effect.isRespond : Effect → Bool
  | .respond _ _ => true
  | _ => false

/-- Test for a validation-error `respond(...)` effect. -/
def Effect.isErrorRespond : Effect → Bool
  | .respond (.blocksError _) _ => true
  | _ => false

/-- Test for a remote API call effect. -/
def Effect.isCallAPI : Effect → Bool
  | .callAPI _ => true
  | _ => false

/-- The remote service, abstracted: one response per endpoint as a function
of the request data the dispatcher sends. -/
structure Oracle where
  customResp : (sequenceArg species : String) → GuidePayload
  checkerResp : (sequenceArg species : String) → CheckerPayload
  predesignResp : (gene species : String) → GuidePayload

/-- Trailing-species extraction of the `design` branch (bot.py lines 594-600):
if the last whitespace-delimited token of the remaining text is a supported
species it is consumed as the species, else the whole remainder is the
sequence and the species defaults to "human". -/
def designExtract (remaining : String) : String × String :=
  let tokens := pyRsplitWs1 remaining
  if tokens.length = 2 ∧ pyLower (tokens.getD 1 "") ∈ SUPPORTED_SPECIES then
    (tokens.getD 0 "", pyLower (tokens.getD 1 ""))
  else
    (remaining, "human")

/-- Header-stripped base count input (bot.py lines 605-608):
`"".join(line.strip() for line in sequence.strip().split("\n") if not line.startswith(">"))`. -/
def pureSeq (sequenceArg : String) : String :=
  let seqLines := pySplitNl (pyStrip sequenceArg)
  String.join ((seqLines.filter (fun l => !pyStartsWith l '>')).map pyStrip)

/-- Sequence/species extraction of the `check` branch (bot.py lines 640-654),
given `parts = text.split(None, 2)`. -/
def checkExtract (parts : List String) : String × String :=
  if parts.length = 3 ∧ pyLower (parts.getD 2 "") ∈ SUPPORTED_SPECIES then
    (pyUpper (pyStrip (parts.getD 1 "")), pyLower (parts.getD 2 ""))
  else if parts.length = 2 then
    let tokens := pyRsplitWs1 (parts.getD 1 "")
    if tokens.length = 2 ∧ pyLower (tokens.getD 1 "") ∈ SUPPORTED_SPECIES then
      (pyUpper (pyStrip (tokens.getD 0 "")), pyLower (tokens.getD 1 ""))
    else
      (pyUpper (pyStrip (parts.getD 1 "")), "human")
  else
    (pyUpper (pyStrip (parts.getD 1 "")), "human")

/-- The `check` validation (bot.py line 657):
`len(sequence) != 20 or not all(c in "ACGT" for c in sequence)`, stated
positively. -/
def checkSeqValid (s : String) : Bool :=
  s.length = 20 && s.data.all (fun c => "ACGT".data.contains c)

/-- Re-joined text after the `design` subcommand (bot.py line 591):
`parts[1] if len(parts) == 2 else parts[1] + " " + parts[2]`. -/
def designRemaining (parts : List String) : String :=
  if parts.length = 2 then parts.getD 1 ""
  else parts.getD 1 "" ++ " " ++ parts.getD 2 ""

/-- Header-stripped base count the `design` parser validates, as a function
of the full `parts` list. -/
def designPureLen (parts : List String) : Nat :=
  (pureSeq (designExtract (designRemaining parts)).1).length

/-- The `design` sub-branch of `handle_crispr_command` (bot.py lines 580-627).
The `ack()` (line 566) is recorded at the head of every branch output. -/
def designBranch (oracle : Oracle) (parts : List String) : List Effect :=
  if parts.length < 2 then
    [.ack, .respond (.blocksError .missingSequenceDesign) .ephemeral]
  else
    let sp := designExtract (designRemaining parts)
    let n := (pureSeq sp.1).length
    if n < 23 ∨ 1000 < n then
      [.ack, .respond (.blocksError (.designLength n)) .ephemeral]
    else
      [.ack,
       .respond (.textProgress ("🔄 Designing gRNAs for your " ++ toString n ++
         "bp sequence (" ++ sp.2 ++ ")... this may take a moment.")) .inChannel,
       .callAPI .custom,
       .respond (.blocksResults (format_custom_results (oracle.customResp sp.1 sp.2) sp.2))
         .inChannel]

/-- The `check` sub-branch of `handle_crispr_command` (bot.py lines 630-675). -/
def checkBranch (oracle : Oracle) (parts : List String) : List Effect :=
  if parts.length < 2 then
    [.ack, .respond (.blocksError .missingSequenceCheck) .ephemeral]
  else
    let sp := checkExtract parts
    if !checkSeqValid sp.1 then
      [.ack, .respond (.blocksError (.checkFormat sp.1.length)) .ephemeral]
    else
      [.ack,
       .respond (.textProgress ("🔄 Checking `" ++ sp.1 ++ "` against " ++ sp.2 ++
         " genome...")) .inChannel,
       .callAPI .checker,
       .respond (.blocksResults (format_checker_results (oracle.checkerResp sp.1 sp.2) sp.1 sp.2))
         .inChannel]

/-- The `predesign` sub-branch of `handle_crispr_command` (bot.py lines 678-700). -/
def predesignBranch (oracle : Oracle) (parts : List String) : List Effect :=
  if parts.length < 2 then
    [.ack, .respond (.blocksError .missingGene) .ephemeral]
  else
    let gene := pyUpper (pyStrip (parts.getD 1 ""))
    let species :=
      if parts.length = 3 ∧ pyLower (parts.getD 2 "") ∈ SUPPORTED_SPECIES then
        pyLower (parts.getD 2 "")
      else "human"
    [.ack,
     .respond (.textProgress ("🔄 Looking up predesigned gRNAs for *" ++ gene ++
       "* (" ++ species ++ ")...")) .inChannel,
     .callAPI .predesigned,
     .respond (.blocksResults (format_predesign_results (oracle.predesignResp gene species) gene species))
       .inChannel]

/-- Model of `handle_crispr_command` (bot.py lines 560-708) on the happy
path of the remote calls: the inbound command text is parsed, validated and
dispatched, and every Slack/remote side effect is recorded in order. -/
def handle_crispr_command (oracle : Oracle) (commandText : String) : List Effect :=
  let text := pyStrip commandText
  if text = "" ∨ pyLower text = "help" then
    [.ack, .respond .blocksHelp .ephemeral]
  else
    let parts := pySplitWs 2 text
    let subcommand := pyLower (parts.headD "")
    if subcommand = "design" then designBranch oracle parts
    else if subcommand = "check" then checkBranch oracle parts
    else if subcommand = "predesign" then predesignBranch oracle parts
    else [.ack, .respond (.blocksError (.unknownSub subcommand)) .ephemeral]

/-- Mutable authentication state of `IDTClient`
(`self._access_token`, `self._token_expiry`; bot.py lines 77-78). -/
structure TokenState where
  accessToken : Option String
  tokenExpiry : ℚ
deriving DecidableEq, Repr

/-- Initial client state (`None`, `0`). -/
def initTokenState : TokenState := { accessToken := none, tokenExpiry := 0 }

/-- Parsed body of a successful token-endpoint response:
`body["access_token"]` and the optional `body.get("expires_in", 3600)`. -/
structure TokenBody where
  accessToken : String
  expiresIn : Option ℚ
deriving DecidableEq, Repr

/-- Python truthiness of `self._access_token` (an optional string). -/
def optStrTruthy : Option String → Bool
  | none => false
  | some s => s ≠ ""

/-- Result of one `_get_token` invocation: the returned token (`none` when
the exchange raised and the exception propagates), the client state
afterwards, and whether a network request to the token endpoint was issued. -/
structure TokenOutcome where
  result : Option String
  state : TokenState
  networkCalled : Bool
deriving DecidableEq, Repr

/-- Model of `IDTClient._get_token` (bot.py lines 80-114).  `now` is the
current time (the two `time.time()` reads within one invocation are modelled
as the same instant); `fetch` is the outcome of the POST to the token
endpoint: `.error` for an unreachable endpoint or a non-success status
(where `raise_for_status` raises before any state is mutated), `.ok body`
for a parsed success body. -/
def get_token (st : TokenState) (now : ℚ) (fetch : Except Unit TokenBody) :
    TokenOutcome :=
  if optStrTruthy st.accessToken && decide (now < st.tokenExpiry) then
    { result := st.accessToken, state := st, networkCalled := false }
  else
    match fetch with
    | .error _ => { result := none, state := st, networkCalled := true }
    | .ok body =>
      let tok := body.accessToken
      -- Subtract 60s buffer so we refresh before actual expiry
      let expiry := now + body.expiresIn.getD 3600 - 60
      { result := some tok,
        state := { accessToken := some tok, tokenExpiry := expiry },
        networkCalled := true }

/-- An oracle whose three endpoints all answer with an empty guide list,
used to instantiate concrete dispatcher runs. -/
def oracle0 : Oracle :=
  { customResp := fun _ _ => .list []
    checkerResp := fun _ _ => .list []
    predesignResp := fun _ _ => .list [] }

end Bot

namespace Bot

/-- Every custom entry block is an entry block. -/
lemma isEntry_customEntryBlock (i : Nat) (g : Guide) :
    Block.isEntry (customEntryBlock i g) = true := rfl

/-- Every predesign entry block is an entry block. -/
lemma isEntry_predesignEntryBlock (i : Nat) (g : Guide) :
    Block.isEntry (predesignEntryBlock i g) = true := rfl

/-- Every checker entry block is an entry block. -/
lemma isEntry_checkerEntryBlock (r : CheckResult) :
    Block.isEntry (checkerEntryBlock r) = true := rfl

/-- The entry blocks of a rendered custom-results message are exactly the
first ten guides, in order. -/
lemma custom_results_entries (data : GuidePayload) (species : String) :
    (format_custom_results data species).filter Block.isEntry =
      ((extractGuides data).take 10).enum.map (fun p => customEntryBlock (p.1 + 1) p.2) := by
  unfold format_custom_results
  by_cases h : extractGuides data = []
  · simp [h, Block.isEntry]
  · have hall : ∀ b ∈ (List.take 10 (extractGuides data)).enum.map
        (fun p => customEntryBlock (p.1 + 1) p.2), Block.isEntry b = true := by
      intro b hb
      obtain ⟨p, _, rfl⟩ := List.mem_map.mp hb
      rfl
    simp [if_neg h, List.filter_append, List.filter_eq_self.mpr hall, Block.isEntry]

/-- The entry blocks of a rendered predesign-results message are exactly the
first ten guides, in order. -/
lemma predesign_results_entries (data : GuidePayload) (gene species : String) :
    (format_predesign_results data gene species).filter Block.isEntry =
      ((extractGuides data).take 10).enum.map (fun p => predesignEntryBlock (p.1 + 1) p.2) := by
  unfold format_predesign_results
  by_cases h : extractGuides data = []
  · simp [h, Block.isEntry]
  · have hall : ∀ b ∈ (List.take 10 (extractGuides data)).enum.map
        (fun p => predesignEntryBlock (p.1 + 1) p.2), Block.isEntry b = true := by
      intro b hb
      obtain ⟨p, _, rfl⟩ := List.mem_map.mp hb
      rfl
    simp [if_neg h, List.filter_append, List.filter_eq_self.mpr hall, Block.isEntry]

/-- The entry blocks of a rendered checker message are one per extracted
result, with no cap. -/
lemma checker_results_entries (data : CheckerPayload) (seqText species : String) :
    (format_checker_results data seqText species).filter Block.isEntry =
      (extractResults data).map checkerEntryBlock := by
  unfold format_checker_results
  by_cases h : extractResults data = []
  · simp [h, Block.isEntry]
  · have hall : ∀ b ∈ (extractResults data).map checkerEntryBlock,
        Block.isEntry b = true := by
      intro b hb
      obtain ⟨r, _, rfl⟩ := List.mem_map.mp hb
      rfl
    simp [if_neg h, List.filter_append, List.filter_eq_self.mpr hall, Block.isEntry]

/-- C3 counterexample: the checker renderer does not cap its per-result
entry blocks at 10 — a payload of 25 result records renders 25 entry
blocks, refuting the claim that every renderer emits at most 10. -/
theorem checker_renderer_uncapped_counterexample :
    countEntries (format_checker_results
        (CheckerPayload.list (List.replicate 25 {}))
        "ATCGATCGATCGATCGATCG" "human") = 25 ∧
    ¬ countEntries (format_checker_results
        (CheckerPayload.list (List.replicate 25 {}))
        "ATCGATCGATCGATCGATCG" "human") ≤ 10 := by
  constructor
  · rw [countEntries, List.countP_eq_length_filter, checker_results_entries]
    simp [extractResults]
  · rw [countEntries, List.countP_eq_length_filter, checker_results_entries]
    simp [extractResults]

/-- C3 (amended): the custom and predesign renderers emit one entry block
per guide record capped at 10, in original order (so a 25-guide payload
renders exactly 10 entries), while the checker renderer emits one entry
block per result record with no cap. -/
theorem renderer_entry_capping :
    (∀ (data : GuidePayload) (species : String),
      (format_custom_results data species).filter Block.isEntry =
        ((extractGuides data).take 10).enum.map (fun p => customEntryBlock (p.1 + 1) p.2) ∧
      countEntries (format_custom_results data species) =
        min 10 (extractGuides data).length) ∧
    (∀ (data : GuidePayload) (gene species : String),
      (format_predesign_results data gene species).filter Block.isEntry =
        ((extractGuides data).take 10).enum.map (fun p => predesignEntryBlock (p.1 + 1) p.2)) ∧
    (∀ (data : CheckerPayload) (seqText species : String),
      (format_checker_results data seqText species).filter Block.isEntry =
        (extractResults data).map checkerEntryBlock ∧
      countEntries (format_checker_results data seqText species) =
        (extractResults data).length) ∧
    countEntries (format_custom_results (.list (List.replicate 25 {})) "human") = 10 := by
  refine ⟨fun data species => ⟨custom_results_entries data species, ?_⟩,
    fun data gene species => predesign_results_entries data gene species,
    fun data seqText species => ⟨checker_results_entries data seqText species, ?_⟩, ?_⟩
  · rw [countEntries, List.countP_eq_length_filter, custom_results_entries]
    simp [List.length_take]
  · rw [countEntries, List.countP_eq_length_filter, checker_results_entries]
    simp
  · rw [countEntries, List.countP_eq_length_filter, custom_results_entries]
    simp [extractGuides]

/-- C5: in the checker renderer a result is rendered "recommended" iff its
on-target score is numeric and ≥ 60 and its off-target score is numeric and
≥ 50; in every other case — including on 60 / off 49 and on 59 / off 100 —
it is rendered "proceed with caution". -/
theorem checker_verdict_thresholds :
    (∀ r : CheckResult,
      checkerEntryBlock r =
        .checkerEntry r.onScoreVal r.offScoreVal
          (scoreEmoji r.onScoreVal) (scoreEmoji r.offScoreVal)
          (checkerVerdict r.onScoreVal r.offScoreVal) ∧
      (checkerVerdict r.onScoreVal r.offScoreVal = true ↔
        (∃ x : ℚ, r.onScoreVal = .num x ∧ 60 ≤ x) ∧
        (∃ y : ℚ, r.offScoreVal = .num y ∧ 50 ≤ y))) ∧
    checkerVerdict (.num 60) (.num 50) = true ∧
    checkerVerdict (.num 60) (.num 49) = false ∧
    checkerVerdict (.num 59) (.num 100) = false ∧
    checkerVerdict (.str "—") (.num 100) = false := by
  refine ⟨fun r => ⟨rfl, ?_⟩, by decide, by decide, by decide, by decide⟩
  cases hon : r.onScoreVal with
  | num x =>
    cases hoff : r.offScoreVal with
    | num y => simp [checkerVerdict, Val.geNum]
    | str t => simp [checkerVerdict, Val.geNum]
  | str t =>
    simp [checkerVerdict, Val.geNum]

/-- C7: the renderer's per-entry tier is green/high iff the score is numeric
and ≥ 60, yellow/medium iff numeric and 40 ≤ score < 60, and red/low in every
other case; an absent score field coalesces to the "—" placeholder string and
is rendered red/low (total function — never an error). -/
theorem score_tier_assignment :
    (∀ v : Val,
      (scoreEmoji v = .green ↔ ∃ x : ℚ, v = .num x ∧ 60 ≤ x) ∧
      (scoreEmoji v = .yellow ↔ ∃ x : ℚ, v = .num x ∧ 40 ≤ x ∧ x < 60) ∧
      (scoreEmoji v = .red ↔ ¬ ∃ x : ℚ, v = .num x ∧ 40 ≤ x)) ∧
    (∀ (idx : Nat) (g : Guide),
      customEntryBlock idx g =
        .customEntry idx g.seqVal g.onScoreVal g.offScoreVal g.posVal g.strandVal
          (scoreEmoji g.onScoreVal) (scoreEmoji g.offScoreVal)) ∧
    (∀ g : Guide,
      Guide.onScoreVal { g with OnTargetScore := none, onTargetScore := none } =
        .str "—" ∧
      scoreEmoji (Guide.onScoreVal
        { g with OnTargetScore := none, onTargetScore := none }) = .red) := by
  refine ⟨fun v => ?_, fun idx g => rfl, fun g => ⟨rfl, rfl⟩⟩
  cases v with
  | num x =>
    have he : scoreEmoji (Val.num x) =
        if 60 ≤ x then Emoji.green else if 40 ≤ x then Emoji.yellow else Emoji.red := by
      simp [scoreEmoji, Val.geNum]
    rw [he]
    split_ifs with h1 h2
    · refine ⟨iff_of_true rfl ⟨x, rfl, h1⟩, iff_of_false (by decide) ?_, iff_of_false (by decide) ?_⟩
      · rintro ⟨x', hx, _, hlt⟩
        cases hx
        linarith
      · rintro hno
        exact hno ⟨x, rfl, by linarith⟩
    · refine ⟨iff_of_false (by decide) ?_, iff_of_true rfl ⟨x, rfl, h2, not_le.mp h1⟩,
        iff_of_false (by decide) ?_⟩
      · rintro ⟨x', hx, hge⟩
        cases hx
        exact h1 hge
      · rintro hno
        exact hno ⟨x, rfl, h2⟩
    · refine ⟨iff_of_false (by decide) ?_, iff_of_false (by decide) ?_, iff_of_true rfl ?_⟩
      · rintro ⟨x', hx, hge⟩
        cases hx
        exact h2 (by linarith)
      · rintro ⟨x', hx, hge, _⟩
        cases hx
        exact h2 hge
      · rintro ⟨x', hx, hge⟩
        cases hx
        exact h2 hge
  | str t =>
    have hs : scoreEmoji (Val.str t) = Emoji.red := rfl
    rw [hs]
    refine ⟨iff_of_false (by decide) ?_, iff_of_false (by decide) ?_, iff_of_true rfl ?_⟩
    · rintro ⟨x', hx, _⟩
      exact Val.noConfusion hx
    · rintro ⟨x', hx, _, _⟩
      exact Val.noConfusion hx
    · rintro ⟨x', hx, _⟩
      exact Val.noConfusion hx

/-- When the first subcommand token lowers to `design`, the dispatcher
reduces to the design branch. -/
lemma handle_eq_design (oracle : Oracle) (text : String)
    (h1 : pyStrip text ≠ "") (h2 : pyLower (pyStrip text) ≠ "help")
    (h3 : pyLower ((pySplitWs 2 (pyStrip text)).headD "") = "design") :
    handle_crispr_command oracle text =
      designBranch oracle (pySplitWs 2 (pyStrip text)) := by
  simp only [handle_crispr_command]
  rw [if_neg (not_or.mpr ⟨h1, h2⟩), h3, if_pos rfl]

/-- When the first subcommand token lowers to `check`, the dispatcher
reduces to the check branch. -/
lemma handle_eq_check (oracle : Oracle) (text : String)
    (h1 : pyStrip text ≠ "") (h2 : pyLower (pyStrip text) ≠ "help")
    (h3 : pyLower ((pySplitWs 2 (pyStrip text)).headD "") = "check") :
    handle_crispr_command oracle text =
      checkBranch oracle (pySplitWs 2 (pyStrip text)) := by
  simp only [handle_crispr_command]
  rw [if_neg (not_or.mpr ⟨h1, h2⟩), h3,
    if_neg (show ("check" : String) ≠ "design" by decide), if_pos rfl]

/-- A design branch with an out-of-range header-stripped count stops with
the length validation error. -/
lemma designBranch_invalid (oracle : Oracle) (parts : List String)
    (h2 : 2 ≤ parts.length)
    (hn : designPureLen parts < 23 ∨ 1000 < designPureLen parts) :
    designBranch oracle parts =
      [.ack, .respond (.blocksError (.designLength (designPureLen parts))) .ephemeral] := by
  unfold designPureLen at hn
  simp only [designBranch]
  rw [if_neg (by omega), if_pos hn]
  rfl

/-- A design branch with an in-range header-stripped count issues the
remote custom-design call. -/
lemma designBranch_valid_mem (oracle : Oracle) (parts : List String)
    (h2 : 2 ≤ parts.length)
    (hn : 23 ≤ designPureLen parts ∧ designPureLen parts ≤ 1000) :
    Effect.callAPI .custom ∈ designBranch oracle parts := by
  unfold designPureLen at hn
  simp only [designBranch]
  rw [if_neg (by omega), if_neg (by omega)]
  simp

/-- The design branch makes the remote call exactly when the count is in
range. -/
lemma designBranch_mem_call_iff (oracle : Oracle) (parts : List String)
    (h2 : 2 ≤ parts.length) :
    Effect.callAPI .custom ∈ designBranch oracle parts ↔
      23 ≤ designPureLen parts ∧ designPureLen parts ≤ 1000 := by
  by_cases hn : 23 ≤ designPureLen parts ∧ designPureLen parts ≤ 1000
  · exact iff_of_true (designBranch_valid_mem oracle parts h2 hn) hn
  · refine iff_of_false ?_ hn
    rw [designBranch_invalid oracle parts h2 (by omega)]
    simp

/-- A check branch whose extracted sequence fails the 20-base A/C/G/T
validation stops with the format validation error. -/
lemma checkBranch_invalid (oracle : Oracle) (parts : List String)
    (h2 : 2 ≤ parts.length)
    (hv : checkSeqValid (checkExtract parts).1 = false) :
    checkBranch oracle parts =
      [.ack,
       .respond (.blocksError (.checkFormat (checkExtract parts).1.length)) .ephemeral] := by
  simp only [checkBranch]
  rw [if_neg (by omega)]
  simp [hv]

/-- A check branch whose extracted sequence passes validation issues the
remote checker call. -/
lemma checkBranch_valid_mem (oracle : Oracle) (parts : List String)
    (h2 : 2 ≤ parts.length)
    (hv : checkSeqValid (checkExtract parts).1 = true) :
    Effect.callAPI .checker ∈ checkBranch oracle parts := by
  simp only [checkBranch]
  rw [if_neg (by omega)]
  simp [hv]

/-- C6: `design` parsing succeeds (the remote call is made) exactly when the
header-stripped character count lies in [23, 1000]; an out-of-range count —
such as 22 or 1001 — stops with the length-reason validation error. -/
theorem design_length_validation (oracle : Oracle) (text : String)
    (h1 : pyStrip text ≠ "") (h2 : pyLower (pyStrip text) ≠ "help")
    (h3 : pyLower ((pySplitWs 2 (pyStrip text)).headD "") = "design")
    (h4 : 2 ≤ (pySplitWs 2 (pyStrip text)).length) :
    (Effect.callAPI .custom ∈ handle_crispr_command oracle text ↔
      23 ≤ designPureLen (pySplitWs 2 (pyStrip text)) ∧
        designPureLen (pySplitWs 2 (pyStrip text)) ≤ 1000) ∧
    (designPureLen (pySplitWs 2 (pyStrip text)) < 23 ∨
        1000 < designPureLen (pySplitWs 2 (pyStrip text)) →
      handle_crispr_command oracle text =
        [.ack,
         .respond (.blocksError (.designLength (designPureLen (pySplitWs 2 (pyStrip text)))))
           .ephemeral]) := by
  rw [handle_eq_design oracle text h1 h2 h3]
  exact ⟨designBranch_mem_call_iff oracle _ h4, designBranch_invalid oracle _ h4⟩

/-- C6 witness: a 22-base design input fails with the length error. -/
theorem design_length_validation_witness :
    handle_crispr_command oracle0 "design AAAAAAAAAAAAAAAAAAAAAA" =
      [.ack, .respond (.blocksError (.designLength 22)) .ephemeral] := by
  have h := (design_length_validation oracle0 "design AAAAAAAAAAAAAAAAAAAAAA"
    (by decide) (by decide) (by decide) (by decide)).2 (by decide)
  exact h.trans rfl

/-- C10: design validation checks only the header-stripped count, never the
alphabet: any input whose count is in [23, 1000] triggers the remote call,
digits, punctuation and lowercase included. -/
theorem design_ignores_alphabet (oracle : Oracle) (text : String)
    (h1 : pyStrip text ≠ "") (h2 : pyLower (pyStrip text) ≠ "help")
    (h3 : pyLower ((pySplitWs 2 (pyStrip text)).headD "") = "design")
    (h4 : 2 ≤ (pySplitWs 2 (pyStrip text)).length)
    (hn : 23 ≤ designPureLen (pySplitWs 2 (pyStrip text)) ∧
      designPureLen (pySplitWs 2 (pyStrip text)) ≤ 1000) :
    Effect.callAPI .custom ∈ handle_crispr_command oracle text := by
  rw [handle_eq_design oracle text h1 h2 h3]
  exact designBranch_valid_mem oracle _ h4 hn

/-- C10 witness: a 23-character sequence full of digits, punctuation and
lowercase passes design validation and the remote call is made. -/
theorem design_ignores_alphabet_witness :
    Effect.callAPI .custom ∈
      handle_crispr_command oracle0 "design abc123!@#xyzABCDEFGHIJK" :=
  design_ignores_alphabet oracle0 "design abc123!@#xyzABCDEFGHIJK"
    (by decide) (by decide) (by decide) (by decide) (by decide)

/-- Dropping leading whitespace is the identity on whitespace-free text. -/
lemma pyDropWsL_of_nonspace (l : List Char) (h : ∀ c ∈ l, pySpace c = false) :
    pyDropWsL l = l := by
  cases l with
  | nil => rfl
  | cons c cs => simp [pyDropWsL, h c (List.mem_cons_self c cs)]

/-- Taking the leading word consumes all of a whitespace-free text. -/
lemma pyTakeWord_of_nonspace (l : List Char) (h : ∀ c ∈ l, pySpace c = false) :
    pyTakeWord l = (l, []) := by
  induction l with
  | nil => rfl
  | cons c cs ih =>
    simp [pyTakeWord, h c (List.mem_cons_self c cs),
      ih (fun x hx => h x (List.mem_cons_of_mem _ hx))]

/-- Python `rsplit(None, 1)` of a nonempty whitespace-free string is the
single-element list holding the string itself. -/
lemma pyRsplitWs1_single (s : String) (hne : s.data ≠ [])
    (h : ∀ c ∈ s.data, pySpace c = false) :
    pyRsplitWs1 s = [s] := by
  have hrev : ∀ c ∈ s.data.reverse, pySpace c = false :=
    fun c hc => h c (List.mem_reverse.mp hc)
  cases hd : s.data.reverse with
  | nil => exact absurd (by simpa using congrArg List.reverse hd) hne
  | cons c cs =>
    have hcs : ∀ x ∈ c :: cs, pySpace x = false := hd ▸ hrev
    unfold pyRsplitWs1
    rw [pyDropWsL_of_nonspace _ hrev, hd]
    simp only [pyTakeWord_of_nonspace _ hcs, pyDropWsL]
    rw [← hd, List.reverse_reverse]

/-- Stripping is the identity on whitespace-free text. -/
lemma pyStrip_of_nonspace (s : String) (h : ∀ c ∈ s.data, pySpace c = false) :
    pyStrip s = s := by
  unfold pyStrip
  rw [pyDropWsL_of_nonspace _ (fun c hc => h c (List.mem_reverse.mp hc)),
    List.reverse_reverse, pyDropWsL_of_nonspace _ h]

/-- Upper-casing is the identity on A/C/G/T text. -/
lemma pyUpper_of_acgt (s : String) (h : ∀ c ∈ s.data, c ∈ "ACGT".data) :
    pyUpper s = s := by
  unfold pyUpper
  rw [List.map_congr_left (g := fun c => c) ?_]
  · simp
  · intro c hc
    have := h c hc
    simp only [show "ACGT".data = ['A', 'C', 'G', 'T'] from rfl, List.mem_cons, List.not_mem_nil, or_false,
      List.mem_singleton] at this
    rcases this with h' | h' | h' | h' <;> subst h' <;> rfl

/-- Characters of an A/C/G/T string are not whitespace. -/
lemma acgt_nonspace (s : String) (h : ∀ c ∈ s.data, c ∈ "ACGT".data) :
    ∀ c ∈ s.data, pySpace c = false := by
  intro c hc
  have := h c hc
  simp only [show "ACGT".data = ['A', 'C', 'G', 'T'] from rfl, List.mem_cons, List.not_mem_nil, or_false,
    List.mem_singleton] at this
  rcases this with h' | h' | h' | h' <;> subst h' <;> rfl

/-- With two parts and no trailing species token in the second, the check
branch extracts the upper-cased stripped second part and species human. -/
lemma checkExtract_pair (s : String) (hs : pyRsplitWs1 s = [s]) :
    checkExtract ["check", s] = (pyUpper (pyStrip s), "human") := by
  simp [checkExtract, hs]

/-- C1 counterexample: on `check ATCGATCGATCGATCGATCG xenopus` the parsed
sequence is the 20-base second token only — the unrecognized trailing token
is discarded, validation passes, no validation error is emitted, and the
remote checker call is made, contrary to the claim that the sequence keeps
the trailing token and fails the 20-character validation. -/
theorem check_trailing_species_counterexample :
    checkExtract (pySplitWs 2 (pyStrip "check ATCGATCGATCGATCGATCG xenopus")) =
      ("ATCGATCGATCGATCGATCG", "human") ∧
    Effect.callAPI .checker ∈
      handle_crispr_command oracle0 "check ATCGATCGATCGATCGATCG xenopus" ∧
    (handle_crispr_command oracle0 "check ATCGATCGATCGATCGATCG xenopus").countP
      Effect.isErrorRespond = 0 := by
  refine ⟨by decide, by decide, by decide⟩

/-- C1 (amended): for a `check` input split into three parts whose trailing
token is not a supported species, parsing yields species "human" and a
sequence equal to the upper-cased stripped second token only; the trailing
token is discarded, so a 20-base A/C/G/T second token passes validation and
the remote call is made. -/
theorem check_trailing_unknown_species (oracle : Oracle) (s t : String)
    (h : pyLower t ∉ SUPPORTED_SPECIES) :
    checkExtract ["check", s, t] = (pyUpper (pyStrip s), "human") ∧
    (checkSeqValid (pyUpper (pyStrip s)) = true →
      Effect.callAPI .checker ∈ checkBranch oracle ["check", s, t]) := by
  have hx : checkExtract ["check", s, t] = (pyUpper (pyStrip s), "human") := by
    simp [checkExtract, h]
  refine ⟨hx, fun hv => checkBranch_valid_mem oracle _ (by simp) ?_⟩
  rw [hx]
  exact hv

/-- C1 amended witness: the counterexample input, run through the amended
statement. -/
theorem check_trailing_unknown_species_witness :
    checkExtract ["check", "ATCGATCGATCGATCGATCG", "xenopus"] =
      ("ATCGATCGATCGATCGATCG", "human") ∧
    Effect.callAPI .checker ∈
      checkBranch oracle0 ["check", "ATCGATCGATCGATCGATCG", "xenopus"] := by
  have h := check_trailing_unknown_species oracle0 "ATCGATCGATCGATCGATCG" "xenopus"
    (by decide)
  exact ⟨h.1.trans rfl, h.2 (by decide)⟩

/-- C2 counterexample: a lowercase 20-base `check` sequence is upper-cased
before validation, so it passes and the remote call is made — contrary to
the claim that any input containing characters outside {A,C,G,T} (including
lowercase) fails with a format validation error. -/
theorem check_lowercase_counterexample :
    Effect.callAPI .checker ∈
      handle_crispr_command oracle0 "check acgtacgtacgtacgtacgt" ∧
    (handle_crispr_command oracle0 "check acgtacgtacgtacgtacgt").countP
      Effect.isErrorRespond = 0 := by
  refine ⟨by decide, by decide⟩

/-- C2 (amended): `check` validation applies to the upper-cased stripped
extracted sequence: every 20-character A/C/G/T token succeeds, and whenever
that upper-cased sequence is not exactly 20 characters drawn from {A,C,G,T}
the branch stops with the format-reason validation error. -/
theorem check_validation_uppercased :
    (∀ (oracle : Oracle) (s : String),
      s.length = 20 → (∀ c ∈ s.data, c ∈ "ACGT".data) →
      Effect.callAPI .checker ∈ checkBranch oracle ["check", s]) ∧
    (∀ (oracle : Oracle) (parts : List String), 2 ≤ parts.length →
      checkSeqValid (checkExtract parts).1 = false →
      checkBranch oracle parts =
        [.ack,
         .respond (.blocksError (.checkFormat (checkExtract parts).1.length))
           .ephemeral]) := by
  constructor
  · intro oracle s h20 hac
    have hws : ∀ c ∈ s.data, pySpace c = false := acgt_nonspace s hac
    have hne : s.data ≠ [] := by
      intro hnil
      rw [show s.length = s.data.length from rfl, hnil] at h20
      cases h20
    have hx : checkExtract ["check", s] = (s, "human") := by
      rw [checkExtract_pair s (pyRsplitWs1_single s hne hws),
        pyStrip_of_nonspace s hws, pyUpper_of_acgt s hac]
    have hv : checkSeqValid (checkExtract ["check", s]).1 = true := by
      rw [hx]
      simp only [checkSeqValid, Bool.and_eq_true, decide_eq_true_eq]
      refine ⟨h20, ?_⟩
      rw [List.all_eq_true]
      intro c hc
      simpa [List.contains] using hac c hc
    exact checkBranch_valid_mem oracle _ (by simp) hv
  · intro oracle parts h2 hv
    exact checkBranch_invalid oracle parts h2 hv

/-- C2 amended witness: a literal 20-base token succeeds; a 4-base token
stops with the format error carrying its length. -/
theorem check_validation_uppercased_witness :
    Effect.callAPI .checker ∈ checkBranch oracle0 ["check", "ATCGATCGATCGATCGATCG"] ∧
    checkBranch oracle0 ["check", "ATCG"] =
      [.ack, .respond (.blocksError (.checkFormat 4)) .ephemeral] := by
  constructor
  · exact check_validation_uppercased.1 oracle0 "ATCGATCGATCGATCGATCG"
      (by decide) (by decide)
  · exact (check_validation_uppercased.2 oracle0 ["check", "ATCG"]
      (by decide) (by decide)).trans rfl

/-- C8: whenever parsing fails validation — design length out of range, or
check sequence not 20 A/C/G/T characters — the dispatcher emits exactly one
respond, it is the requester-private (ephemeral) validation error, and no
remote API call is made. -/
theorem validation_failure_no_remote_call :
    (∀ (oracle : Oracle) (text : String),
      pyStrip text ≠ "" → pyLower (pyStrip text) ≠ "help" →
      pyLower ((pySplitWs 2 (pyStrip text)).headD "") = "design" →
      2 ≤ (pySplitWs 2 (pyStrip text)).length →
      designPureLen (pySplitWs 2 (pyStrip text)) < 23 ∨
        1000 < designPureLen (pySplitWs 2 (pyStrip text)) →
      handle_crispr_command oracle text =
        [.ack,
         .respond (.blocksError (.designLength (designPureLen (pySplitWs 2 (pyStrip text)))))
           .ephemeral] ∧
      (handle_crispr_command oracle text).countP Effect.isRespond = 1 ∧
      ∀ ep, Effect.callAPI ep ∉ handle_crispr_command oracle text) ∧
    (∀ (oracle : Oracle) (text : String),
      pyStrip text ≠ "" → pyLower (pyStrip text) ≠ "help" →
      pyLower ((pySplitWs 2 (pyStrip text)).headD "") = "check" →
      2 ≤ (pySplitWs 2 (pyStrip text)).length →
      checkSeqValid (checkExtract (pySplitWs 2 (pyStrip text))).1 = false →
      handle_crispr_command oracle text =
        [.ack,
         .respond (.blocksError (.checkFormat
           (checkExtract (pySplitWs 2 (pyStrip text))).1.length)) .ephemeral] ∧
      (handle_crispr_command oracle text).countP Effect.isRespond = 1 ∧
      ∀ ep, Effect.callAPI ep ∉ handle_crispr_command oracle text) := by
  constructor
  · intro oracle text h1 h2 h3 h4 hn
    have he : handle_crispr_command oracle text =
        [.ack,
         .respond (.blocksError (.designLength (designPureLen (pySplitWs 2 (pyStrip text)))))
           .ephemeral] :=
      (handle_eq_design oracle text h1 h2 h3).trans
        (designBranch_invalid oracle _ h4 hn)
    refine ⟨he, ?_, ?_⟩
    · rw [he]
      rfl
    · intro ep
      rw [he]
      simp
  · intro oracle text h1 h2 h3 h4 hv
    have he : handle_crispr_command oracle text =
        [.ack,
         .respond (.blocksError (.checkFormat
           (checkExtract (pySplitWs 2 (pyStrip text))).1.length)) .ephemeral] :=
      (handle_eq_check oracle text h1 h2 h3).trans
        (checkBranch_invalid oracle _ h4 hv)
    refine ⟨he, ?_, ?_⟩
    · rw [he]
      rfl
    · intro ep
      rw [he]
      simp

/-- C8 witness: a 3-base design input and a 4-base check input each produce
exactly the single ephemeral validation error and no remote call. -/
theorem validation_failure_no_remote_call_witness :
    handle_crispr_command oracle0 "design AAA" =
      [.ack, .respond (.blocksError (.designLength 3)) .ephemeral] ∧
    handle_crispr_command oracle0 "check AAAA human" =
      [.ack, .respond (.blocksError (.checkFormat 4)) .ephemeral] := by
  constructor
  · exact ((validation_failure_no_remote_call.1 oracle0 "design AAA"
      (by decide) (by decide) (by decide) (by decide) (by decide)).1).trans rfl
  · exact ((validation_failure_no_remote_call.2 oracle0 "check AAAA human"
      (by decide) (by decide) (by decide) (by decide) (by decide)).1).trans rfl

/-- A failed guard (no usable cached token) always issues the network
request, whatever its outcome. -/
lemma get_token_networkCalled_of_guard_false (st : TokenState) (now : ℚ)
    (f : Except Unit TokenBody)
    (hg : (optStrTruthy st.accessToken && decide (now < st.tokenExpiry)) = false) :
    (get_token st now f).networkCalled = true := by
  cases f <;> simp [get_token, hg]

/-- C4: a cached, unexpired token is returned unchanged with no network
call; otherwise the token endpoint is called and on success the new expiry
is now + server-provided ttl − 60.  Consequently two consecutive requests
inside the cached window issue exactly one network call and a third request
at or after the computed expiry issues a second one. -/
theorem get_token_caching_policy :
    (∀ (st : TokenState) (now : ℚ) (fetch : Except Unit TokenBody),
      optStrTruthy st.accessToken = true → now < st.tokenExpiry →
      get_token st now fetch =
        { result := st.accessToken, state := st, networkCalled := false }) ∧
    (∀ (st : TokenState) (now : ℚ) (body : TokenBody) (ttl : ℚ),
      (optStrTruthy st.accessToken && decide (now < st.tokenExpiry)) = false →
      body.expiresIn = some ttl →
      get_token st now (.ok body) =
        { result := some body.accessToken,
          state := { accessToken := some body.accessToken,
                     tokenExpiry := now + ttl - 60 },
          networkCalled := true }) ∧
    (∀ (t1 t2 t3 : ℚ) (body body2 : TokenBody) (f2 : Except Unit TokenBody) (ttl : ℚ),
      body.accessToken ≠ "" → body.expiresIn = some ttl →
      t2 < t1 + ttl - 60 → t1 + ttl - 60 ≤ t3 →
      (get_token initTokenState t1 (.ok body)).networkCalled = true ∧
      (get_token (get_token initTokenState t1 (.ok body)).state t2 f2).networkCalled
        = false ∧
      (get_token (get_token initTokenState t1 (.ok body)).state t2 f2).result
        = some body.accessToken ∧
      (get_token (get_token (get_token initTokenState t1 (.ok body)).state t2 f2).state
        t3 (.ok body2)).networkCalled = true) := by
  refine ⟨?_, ?_, ?_⟩
  · intro st now fetch h1 h2
    simp [get_token, h1, h2]
  · intro st now body ttl hg hb
    simp [get_token, hg, hb]
  · intro t1 t2 t3 body body2 f2 ttl htok hb ht2 ht3
    have e1 : get_token initTokenState t1 (.ok body) =
        { result := some body.accessToken,
          state := { accessToken := some body.accessToken,
                     tokenExpiry := t1 + ttl - 60 },
          networkCalled := true } := by
      simp [get_token, initTokenState, optStrTruthy, hb]
    have e2 : get_token
        { accessToken := some body.accessToken, tokenExpiry := t1 + ttl - 60 }
        t2 f2 =
        { result := some body.accessToken,
          state := { accessToken := some body.accessToken,
                     tokenExpiry := t1 + ttl - 60 },
          networkCalled := false } := by
      simp [get_token, optStrTruthy, htok, ht2]
    refine ⟨by rw [e1], ?_, ?_, ?_⟩
    · rw [e1, e2]
    · rw [e1, e2]
    · rw [e1, e2]
      refine get_token_networkCalled_of_guard_false _ _ _ ?_
      simp [optStrTruthy, not_lt.mpr ht3]

/-- C4 witness: the scenario at t1 = 0, ttl = 3600, t2 = 1000, t3 = 3600. -/
theorem get_token_caching_policy_witness :
    (get_token initTokenState 0
      (.ok { accessToken := "tok", expiresIn := some 3600 })).networkCalled = true ∧
    (get_token (get_token initTokenState 0
        (.ok { accessToken := "tok", expiresIn := some 3600 })).state 1000
      (.error ())).networkCalled = false ∧
    (get_token (get_token initTokenState 0
        (.ok { accessToken := "tok", expiresIn := some 3600 })).state 1000
      (.error ())).result = some "tok" ∧
    (get_token (get_token (get_token initTokenState 0
          (.ok { accessToken := "tok", expiresIn := some 3600 })).state 1000
        (.error ())).state 3600
      (.ok { accessToken := "tok2", expiresIn := some 3600 })).networkCalled = true := by
  have h := get_token_caching_policy.2.2 0 1000 3600
    { accessToken := "tok", expiresIn := some 3600 }
    { accessToken := "tok2", expiresIn := some 3600 }
    (.error ()) 3600 (by decide) rfl (by norm_num) (by norm_num)
  exact h

/-- C9: when the token exchange fails, `_get_token` raises without mutating
the cached token or expiry, and a later request attempts the exchange
again. -/
theorem get_token_failure_preserves_state (st : TokenState) (now later : ℚ)
    (f2 : Except Unit TokenBody)
    (hg : (optStrTruthy st.accessToken && decide (now < st.tokenExpiry)) = false)
    (hle : now ≤ later) :
    get_token st now (.error ()) =
      { result := none, state := st, networkCalled := true } ∧
    (get_token (get_token st now (.error ())).state later f2).networkCalled = true := by
  have he : get_token st now (.error ()) =
      { result := none, state := st, networkCalled := true } := by
    simp [get_token, hg]
  refine ⟨he, ?_⟩
  rw [he]
  refine get_token_networkCalled_of_guard_false _ _ _ ?_
  rcases Bool.eq_false_or_eq_true (optStrTruthy st.accessToken) with hopt | hopt
  · have hexp : st.tokenExpiry ≤ now := by
      by_contra hlt
      rw [hopt, decide_eq_true (not_le.mp hlt)] at hg
      cases hg
    simp [hopt, not_lt.mpr (hexp.trans hle)]
  · simp [hopt]

/-- C9 witness: starting from the empty cache the failing exchange leaves
the state untouched and the next call retries the network. -/
theorem get_token_failure_preserves_state_witness :
    get_token initTokenState 0 (.error ()) =
      { result := none, state := initTokenState, networkCalled := true } ∧
    (get_token (get_token initTokenState 0 (.error ())).state 1
      (.error ())).networkCalled = true := by
  exact get_token_failure_preserves_state initTokenState 0 1 (.error ())
    (by decide) (by norm_num)
